import Mathlib

/-!
Verification of the `unaligned` crate: a storage shim `Unaligned<T>` that
stores a value at alignment 1, and a borrow-checked cell `UnalignedCell<T>`
layering a runtime exclusivity lock over the shim.

Shallow embedding conventions:
* `Unaligned T` is a one-field structure; the packed layout itself is
  modelled separately by a small Rust-layout calculus (`RustTy`).
* Mutation through `&mut` is modelled by explicit state passing: a Rust
  closure `FnOnce(&mut T) -> R` becomes `T → T × R` (final value of the
  temporary paired with the closure result).  A closure that may panic
  becomes `T → T × Except E R`: the first component is the state of the
  aligned temporary at the moment the closure exits (normally or by
  unwinding), which is what the scope guard writes back.
* The interior-mutable cell is a state value `OptUnaligned T`; operations
  on one cell are state transformers, and operations that may touch two
  cells (swap, comparisons with the `ptr::eq` identity check) act on a
  store `Addr → OptUnaligned T` where `Addr` plays the role of the cell's
  address.
* Rust panics (`expect`, `unwrap`, the panicking `borrow`) are modelled as
  `Except` errors.
-/

namespace UnalignedCrate

/-- Model of `Unaligned<T>`: the `#[repr(C, packed)]` storage shim around a `T`
(src/unaligned.rs).  The value content is just the wrapped `T`; the layout
consequences of `repr(C, packed)` are modelled by `RustTy` below. -/
structure Unaligned (T : Type) where
  val : T
deriving DecidableEq, Repr

/-- Model of `Unaligned::new`: wrap a value (src/unaligned.rs line 14). -/
def Unaligned.new {T : Type} (value : T) : Unaligned T :=
  ⟨value⟩

/-- Model of `Unaligned::into_inner`: consume the shim and return the inner value
(src/unaligned.rs line 19). -/
def Unaligned.into_inner {T : Type} (u : Unaligned T) : T :=
  u.val

/-- Model of `Unaligned::set`: overwrite the inner value in place
(src/unaligned.rs line 136). -/
def Unaligned.set {T : Type} (_u : Unaligned T) (value : T) : Unaligned T :=
  ⟨value⟩

/-- Model of `Unaligned::get` for `T: Copy`: copy out the inner value
(src/unaligned.rs line 181). -/
def Unaligned.get {T : Type} (u : Unaligned T) : T :=
  u.val

/-- Model of `Unaligned::with_mut` (src/unaligned.rs lines 156-169): relocate the
payload into an aligned temporary, run `f` on it, and write the temporary
back on every exit path (the `scopeguard` write-back).  The closure is
state-passing: `f v` is the pair (final value of the temporary, result).
When `f`'s result type is `Except E R`, an `.error` result models a panic
propagating out of `f`; the first component is still written back, exactly
as the scope guard does under unwinding. -/
def Unaligned.with_mut {T R : Type} (u : Unaligned T) (f : T → T × R) :
    Unaligned T × R :=
  let out := f u.val
  (⟨out.1⟩, out.2)

/-- Model of `Unaligned::swap` with an external aligned value
(src/unaligned.rs line 126): built on `with_mut` with `mem::swap`. -/
def Unaligned.swap {T : Type} (u : Unaligned T) (other : T) :
    Unaligned T × T :=
  u.with_mut (fun v => (other, v))

/-- Model of `Unaligned::replace` (src/unaligned.rs line 131): built on `with_mut`
with `mem::replace`. -/
def Unaligned.replace {T : Type} (u : Unaligned T) (value : T) :
    Unaligned T × T :=
  u.with_mut (fun v => (value, v))

/-- Model of `Unaligned::<[T; N]>::into_array_of_unaligned`
(src/unaligned.rs lines 188-194): reinterpret a shim over an `N`-array as
an array of `N` individually shimmed elements.  The `transmute_copy` is a
bit-identical reinterpretation between two layouts whose byte `i *
size_of::<T>() .. (i+1) * size_of::<T>()` region is element `i` in both
views, so its value semantics is elementwise rewrapping. -/
def Unaligned.into_array_of_unaligned {T : Type} {n : ℕ}
    (u : Unaligned (Fin n → T)) : Fin n → Unaligned T :=
  fun i => Unaligned.new (u.val i)

/-- Model of `Unaligned::<[T; N]>::as_array_of_unaligned`
(src/unaligned.rs lines 197-200): the by-reference (zero-copy) view; same
reinterpretation read through a shared reference. -/
def Unaligned.as_array_of_unaligned {T : Type} {n : ℕ}
    (u : Unaligned (Fin n → T)) : Fin n → Unaligned T :=
  fun i => Unaligned.new (u.val i)

/-- Model of `Unaligned::<[T; N]>::as_mut_array_of_unaligned`
(src/unaligned.rs lines 203-206): the by-mutable-reference view. -/
def Unaligned.as_mut_array_of_unaligned {T : Type} {n : ℕ}
    (u : Unaligned (Fin n → T)) : Fin n → Unaligned T :=
  fun i => Unaligned.new (u.val i)

/-- The inverse reinterpretation, from an array of shimmed elements back to
a shim over the array: the same layout identity read in the other
direction (the spec's "and back"). -/
def arrayOfUnalignedIntoUnaligned {T : Type} {n : ℕ}
    (a : Fin n → Unaligned T) : Unaligned (Fin n → T) :=
  Unaligned.new (fun i => (a i).val)

/-! ### The option type of the cell (src/cell/opt.rs) -/

/-- Model of `OptUnaligned<T>` (src/cell/opt.rs): a `repr(u8)` option enum over
`Unaligned<T>`, with the payload at a fixed offset so it can be projected
by pointer arithmetic. -/
inductive OptUnaligned (T : Type) where
  | none
  | some (val : Unaligned T)
deriving DecidableEq, Repr

/-- Model of `OptUnaligned::some(value)` (src/cell/opt.rs line 20): wrap a value. -/
def OptUnaligned.some' {T : Type} (value : T) : OptUnaligned T :=
  OptUnaligned.some (Unaligned.new value)

/-- Model of `OptUnaligned::into_option` (src/cell/opt.rs lines 24-29). -/
def OptUnaligned.into_option {T : Type} : OptUnaligned T → Option (Unaligned T)
  | OptUnaligned.some v => Option.some v
  | OptUnaligned.none => Option.none

/-- Model of `OptUnaligned::as_option_mut` (src/cell/opt.rs lines 31-36): the same
projection, read through a mutable reference. -/
def OptUnaligned.as_option_mut {T : Type} : OptUnaligned T → Option (Unaligned T)
  | OptUnaligned.some v => Option.some v
  | OptUnaligned.none => Option.none

/-- Model of `Default` for `OptUnaligned` is `None` (the `#[default]` attribute in
src/cell/opt.rs); this is what `Cell::take` leaves behind. -/
def OptUnaligned.default {T : Type} : OptUnaligned T :=
  OptUnaligned.none

/-! ### The borrow-checked cell (src/cell.rs)

The state of one `UnalignedCell<T>` is the `OptUnaligned<T>` inside its
`Cell`.  A `RefMut` guard is modelled by the value it carries (its
`ManuallyDrop<T>` payload); `Deref`/`DerefMut` on the guard read and write
that payload, which in state-passing style is just the `T` itself. -/

/-- Model of `BorrowError` (src/cell.rs line 60). -/
structure BorrowError where
deriving DecidableEq, Repr

/-- The panic raised by `UnalignedCell::into_inner` when the slot is empty
("value should not be borrowed (was a borrow leaked?)",
src/cell.rs line 89). -/
structure LeakError where
deriving DecidableEq, Repr

/-- Model of `UnalignedCell::new` (src/cell.rs line 80): the initial cell state. -/
def cellNew {T : Type} (value : T) : OptUnaligned T :=
  OptUnaligned.some' value

/-- Model of `UnalignedCell::try_borrow` (src/cell.rs lines 126-132):
`self.0.take()` swaps the slot for `None`, then the taken value is
unwrapped; on `None` the borrow conflicts.  On success the guard holds the
value and the cell is left empty. -/
def tryBorrow {T : Type} (st : OptUnaligned T) :
    Except BorrowError (T × OptUnaligned T) :=
  match st.into_option with
  | Option.none => Except.error ⟨⟩
  | Option.some u => Except.ok (u.into_inner, OptUnaligned.default)

/-- Model of `UnalignedCell::borrow` (src/cell.rs lines 110-112):
`try_borrow().expect(..)`; the panic is the propagated error. -/
def cellBorrow {T : Type} (st : OptUnaligned T) :
    Except BorrowError (T × OptUnaligned T) :=
  tryBorrow st

/-- Model of `Drop` for `RefMut` (src/cell.rs lines 25-31): take the guard's
payload and `set` the cell back to `Some` of it.  This runs exactly once,
when the guard goes out of scope on any exit path. -/
def dropRefMut {T : Type} (_st : OptUnaligned T) (value : T) : OptUnaligned T :=
  OptUnaligned.some' value

/-- Model of `UnalignedCell::into_inner` (src/cell.rs lines 85-91): consume the
cell; the `expect` on an empty slot is the leak panic. -/
def cellIntoInner {T : Type} (st : OptUnaligned T) : Except LeakError T :=
  match st.into_option with
  | Option.none => Except.error ⟨⟩
  | Option.some u => Except.ok u.into_inner

/-- Model of `UnalignedCell::get_mut` (src/cell.rs lines 143-145):
`self.0.get_mut().as_option_mut()` — the handle to the underlying shim.
The trailing `.unwrap()` is the (claimed unreachable) failure branch,
modelled by the `Option`. -/
def getMut {T : Type} (st : OptUnaligned T) : Option (Unaligned T) :=
  st.as_option_mut

/-! #### Store-level operations

Operations whose behaviour depends on cell identity (`swap`, the
comparison family with its `ptr::eq` short-circuit) are modelled over a
store mapping addresses to cell states. -/

/-- A cell address (stands for `*const UnalignedCell<T>`). -/
abbrev Addr : Type := ℕ

/-- A store of cells: each address holds one cell state. -/
abbrev Store (T : Type) : Type := Addr → OptUnaligned T

/-- Update one cell of the store. -/
def storeUpdate {T : Type} (σ : Store T) (a : Addr) (st : OptUnaligned T) :
    Store T :=
  fun x => if x = a then st else σ x

/-- Model of `try_borrow` on the cell at address `a`. -/
def storeTryBorrow {T : Type} (σ : Store T) (a : Addr) :
    Except BorrowError (T × Store T) :=
  match tryBorrow (σ a) with
  | Except.error e => Except.error e
  | Except.ok (v, st) => Except.ok (v, storeUpdate σ a st)

/-- Dropping a guard of the cell at address `a` whose payload is `v`. -/
def storeDrop {T : Type} (σ : Store T) (a : Addr) (v : T) : Store T :=
  storeUpdate σ a (dropRefMut (σ a) v)

/-- Model of `UnalignedCell::swap` (src/cell.rs lines 151-153):
`mem::swap(&mut *self.borrow(), &mut *other.borrow())`.  Borrow `self`,
then borrow `other`; if the second borrow panics (in particular when both
arguments are the same cell, whose slot is now empty), unwinding drops the
first guard, which writes its unmodified payload back.  On success the
payloads are exchanged and both guards drop at the end of the statement
(the second-created guard first).  The result pairs the outcome with the
final store after all guards have dropped. -/
def cellSwap {T : Type} (σ : Store T) (a b : Addr) :
    Except BorrowError Unit × Store T :=
  match storeTryBorrow σ a with
  | Except.error e => (Except.error e, σ)
  | Except.ok (va, σ₁) =>
    match storeTryBorrow σ₁ b with
    | Except.error e => (Except.error e, storeDrop σ₁ a va)
    | Except.ok (vb, σ₂) =>
      (Except.ok ⟨⟩, storeDrop (storeDrop σ₂ b va) a vb)

/-- The shared shape of the comparison family on `UnalignedCell`
(src/cell.rs lines 229-299: `eq`, `partial_cmp`, `lt`, `le`, `gt`, `ge`,
`cmp`, with `f` the wrapped type's corresponding operation): if the two
operands are identity-equal (`ptr::eq`), borrow once and feed the single
obtained value to both sides; otherwise borrow both operands.  On success
the guards drop at the end of the expression, restoring the cells. -/
def cellBinop {T β : Type} (f : T → T → β) (σ : Store T) (a b : Addr) :
    Except BorrowError (β × Store T) :=
  if a = b then
    match storeTryBorrow σ a with
    | Except.error e => Except.error e
    | Except.ok (v, σ₁) => Except.ok (f v v, storeDrop σ₁ a v)
  else
    match storeTryBorrow σ a with
    | Except.error e => Except.error e
    | Except.ok (va, σ₁) =>
      match storeTryBorrow σ₁ b with
      | Except.error e => Except.error e
      | Except.ok (vb, σ₂) =>
        Except.ok (f va vb, storeDrop (storeDrop σ₂ b vb) a va)

/-- Model of `Hash` for `UnalignedCell` (src/cell.rs lines 318-322):
`self.borrow().hash(state)` with `h` the wrapped type's hash. -/
def cellHash {T : Type} (h : T → ℕ) (σ : Store T) (a : Addr) :
    Except BorrowError (ℕ × Store T) :=
  match storeTryBorrow σ a with
  | Except.error e => Except.error e
  | Except.ok (v, σ₁) => Except.ok (h v, storeDrop σ₁ a v)

/-- Model of `Clone` for `UnalignedCell` (src/cell.rs lines 202-206):
`Self::new(self.borrow().clone())` with `cl` the wrapped type's clone.
Returns the new cell's state alongside the store after the guard drops. -/
def cellClone {T : Type} (cl : T → T) (σ : Store T) (a : Addr) :
    Except BorrowError (OptUnaligned T × Store T) :=
  match storeTryBorrow σ a with
  | Except.error e => Except.error e
  | Except.ok (v, σ₁) => Except.ok (cellNew (cl v), storeDrop σ₁ a v)

/-- Model of `Debug` for `UnalignedCell` (src/cell.rs lines 214-220):
`f.debug_tuple("UnalignedCell").field(&*self.borrow())`, with `dbg` the
wrapped type's `Debug` rendering. -/
def cellDebugFmt {T : Type} (dbg : T → String) (σ : Store T) (a : Addr) :
    Except BorrowError (String × Store T) :=
  match storeTryBorrow σ a with
  | Except.error e => Except.error e
  | Except.ok (v, σ₁) =>
    Except.ok ("UnalignedCell(" ++ dbg v ++ ")", storeDrop σ₁ a v)

/-- Model of `Display` for `UnalignedCell` (src/cell.rs lines 222-226):
`self.borrow().fmt(f)`, with `disp` the wrapped type's `Display`. -/
def cellDisplayFmt {T : Type} (disp : T → String) (σ : Store T) (a : Addr) :
    Except BorrowError (String × Store T) :=
  match storeTryBorrow σ a with
  | Except.error e => Except.error e
  | Except.ok (v, σ₁) => Except.ok (disp v, storeDrop σ₁ a v)

/-! ### Layout model

A small calculus of Rust type layouts, enough to compute `size_of` and
`align_of` for the reprs the crate uses.  `Unaligned<T>` is declared
`#[repr(C, packed)]` with a single field of type `T`
(src/unaligned.rs lines 8-10): `packed` forces the struct's alignment and
every field's placement alignment to 1, so fields are laid out at
consecutive offsets with no padding, and the struct's size is the sum of
the field sizes. -/

/-- Rust type shapes relevant to the crate: a primitive of given size and
alignment, a `#[repr(C, packed)]` struct, and a fixed-length array
(`size = n * size_of::<T>()`, `align = align_of::<T>()`; element stride
equals element size because a Rust type's size is a multiple of its
alignment — trivially so here once everything is packed). -/
inductive RustTy where
  | prim (size align : ℕ)
  | packedStruct (fields : List RustTy)
  | array (elem : RustTy) (n : ℕ)

mutual

/-- Model of `mem::size_of` on the layout model. -/
def size_of : RustTy → ℕ
  | RustTy.prim s _ => s
  | RustTy.packedStruct fields => size_of_fields fields
  | RustTy.array t n => n * size_of t

/-- Total size of a packed struct's field list: consecutive fields, no
padding. -/
def size_of_fields : List RustTy → ℕ
  | [] => 0
  | t :: ts => size_of t + size_of_fields ts

end

/-- Model of `mem::align_of` on the layout model. -/
def align_of : RustTy → ℕ
  | RustTy.prim _ a => a
  | RustTy.packedStruct _ => 1
  | RustTy.array t _ => align_of t

/-- The layout of `Unaligned<T>`: a `#[repr(C, packed)]` struct with the
single field `T` (src/unaligned.rs lines 8-10). -/
def unalignedTy (t : RustTy) : RustTy :=
  RustTy.packedStruct [t]

/-! ### Reachable cell states and outstanding guards

For the claim about `get_mut`, record alongside the cell state whether a
`RefMut` guard is outstanding and whether a guard has ever been leaked.
The cell starts occupied with no guard; a successful borrow empties the
slot and creates the guard; dropping the guard refills the slot.  A guard
can also be leaked in safe client code (e.g. `mem::forget(guard)`): the
guard's borrow of the cell ends but its `Drop` write-back never runs, so
the slot stays empty with no guard outstanding — the documented misuse
behind the leak error of `into_inner`.  `get_mut` takes the cell by
`&mut`, which the Rust borrow checker only grants when no `RefMut` (which
holds a shared reference to the cell for its lifetime) is live — i.e. when
`guardOut = false`. -/

/-- A cell state paired with whether a guard is outstanding and whether a
guard was ever leaked (dropped without running its write-back). -/
structure CellWorld (T : Type) where
  st : OptUnaligned T
  guardOut : Bool
  leaked : Bool
deriving DecidableEq, Repr

/-- The states reachable through the cell's API from construction,
including the leaked-guard misuse. -/
inductive CellReachable {T : Type} : CellWorld T → Prop
  | init (v : T) : CellReachable ⟨cellNew v, false, false⟩
  | borrow {u : Unaligned T} {g l : Bool}
      (_prev : CellReachable ⟨OptUnaligned.some u, g, l⟩) :
      CellReachable ⟨OptUnaligned.default, true, l⟩
  | release {st : OptUnaligned T} {l : Bool} (v : T)
      (_prev : CellReachable ⟨st, true, l⟩) :
      CellReachable ⟨dropRefMut st v, false, l⟩
  | leak {st : OptUnaligned T} {l : Bool}
      (_prev : CellReachable ⟨st, true, l⟩) :
      CellReachable ⟨st, false, true⟩

/-! ## Theorems -/

/-- C3: For every value v, constructing a storage shim around v and then
unwrapping it returns a value observably equal to v:
`into_inner(Unaligned::new(v)) = v`. -/
theorem round_trip_new_into_inner {T : Type} (v : T) :
    Unaligned.into_inner (Unaligned.new v) = v :=
  rfl

/-- C2: `with_mut` relocates the shim's value into an aligned temporary,
runs `f` on it, and writes the temporary back on every exit path: the
shim's new value is the closure's final temporary whether the closure's
outcome is a normal result or a propagated failure, `with_mut` returns the
closure's outcome, and with an identity transform the shim is unchanged. -/
theorem with_mut_write_back {T R E : Type} (u : Unaligned T)
    (f : T → T × Except E R) (r : T → R) :
    (u.with_mut f).1.val = (f u.val).1 ∧
    (u.with_mut f).2 = (f u.val).2 ∧
    (u.with_mut (fun v => (v, r v))).1 = u ∧
    (u.with_mut (fun v => (v, r v))).2 = r u.val :=
  ⟨rfl, rfl, rfl, rfl⟩

/-- C1: a cell created `Occupied(v)` borrows successfully, yielding a
guard holding v and leaving the cell `Empty`; a second `try_borrow` while
the guard is outstanding returns the borrow-conflict error; releasing the
guard writes the (possibly mutated) payload w back, restoring `Occupied`,
after which a borrow succeeds and observes w. -/
theorem borrow_exclusivity {T : Type} (v w : T) :
    tryBorrow (cellNew v) = Except.ok (v, (OptUnaligned.none : OptUnaligned T)) ∧
    cellBorrow (cellNew v) = Except.ok (v, (OptUnaligned.none : OptUnaligned T)) ∧
    tryBorrow (OptUnaligned.none : OptUnaligned T) = Except.error ⟨⟩ ∧
    dropRefMut (OptUnaligned.none : OptUnaligned T) w = cellNew w ∧
    cellBorrow (dropRefMut (OptUnaligned.none : OptUnaligned T) w) =
      Except.ok (w, (OptUnaligned.none : OptUnaligned T)) :=
  ⟨rfl, rfl, rfl, rfl, rfl⟩

/-- C6: consuming an `Occupied(v)` cell returns v; consuming an `Empty`
cell — the state `try_borrow` leaves behind when the guard is never
released — fails with the leak error rather than returning any value. -/
theorem into_inner_leak {T : Type} (v : T) :
    cellIntoInner (cellNew v) = Except.ok v ∧
    tryBorrow (cellNew v) = Except.ok (v, (OptUnaligned.none : OptUnaligned T)) ∧
    cellIntoInner (OptUnaligned.none : OptUnaligned T) = Except.error ⟨⟩ :=
  ⟨rfl, rfl, rfl⟩

/-- C7: `Unaligned<T>` (`#[repr(C, packed)]` with one field) has the byte
size of `T` and alignment exactly 1, for every `T`; no padding is
inserted. -/
theorem layout_invariant (t : RustTy) :
    size_of (unalignedTy t) = size_of t ∧ align_of (unalignedTy t) = 1 := by
  constructor
  · simp [unalignedTy, size_of, size_of_fields]
  · simp [unalignedTy, align_of]

/-- C8: converting a shim over an N-array to an array of N individually
shimmed elements and back is the identity (in both directions), element i
of the converted array holds element i of the original, the by-reference
and by-mutable-reference views agree with the by-value conversion, and the
two layouts coincide in size and alignment. -/
theorem array_reinterpretation {T : Type} {n : ℕ}
    (u : Unaligned (Fin n → T)) (a : Fin n → Unaligned T) (i : Fin n)
    (t : RustTy) :
    arrayOfUnalignedIntoUnaligned u.into_array_of_unaligned = u ∧
    (arrayOfUnalignedIntoUnaligned a).into_array_of_unaligned = a ∧
    u.into_array_of_unaligned i = Unaligned.new (u.val i) ∧
    u.as_array_of_unaligned i = Unaligned.new (u.val i) ∧
    u.as_mut_array_of_unaligned i = Unaligned.new (u.val i) ∧
    size_of (unalignedTy (RustTy.array t n)) =
      size_of (RustTy.array (unalignedTy t) n) ∧
    align_of (unalignedTy (RustTy.array t n)) =
      align_of (RustTy.array (unalignedTy t) n) := by
  refine ⟨rfl, rfl, rfl, rfl, rfl, ?_, ?_⟩
  · simp [unalignedTy, size_of, size_of_fields]
  · simp [unalignedTy, align_of]

/-- Helper: borrowing the occupied cell at `a` and then dropping the guard
with the unmodified payload restores the store exactly. -/
theorem storeDrop_restore {T : Type} (σ : Store T) (a : Addr) (v : T)
    (h : σ a = cellNew v) :
    storeDrop (storeUpdate σ a OptUnaligned.default) a v = σ := by
  funext x
  by_cases hx : x = a
  · subst hx
    simp [storeDrop, storeUpdate, dropRefMut, cellNew] at h ⊢
    exact h.symm
  · simp [storeDrop, storeUpdate, hx]

/-- Helper: `storeTryBorrow` on an occupied cell succeeds, yielding the
payload and the store with that slot emptied. -/
theorem storeTryBorrow_occupied {T : Type} (σ : Store T) (a : Addr) (v : T)
    (h : σ a = cellNew v) :
    storeTryBorrow σ a =
      Except.ok (v, storeUpdate σ a OptUnaligned.default) := by
  simp [storeTryBorrow, tryBorrow, h, cellNew, OptUnaligned.some',
    OptUnaligned.into_option, Unaligned.new, Unaligned.into_inner]

/-- Helper: `storeTryBorrow` on an empty cell returns the borrow-conflict
error. -/
theorem storeTryBorrow_empty {T : Type} (σ : Store T) (a : Addr)
    (h : σ a = OptUnaligned.none) :
    storeTryBorrow σ a = Except.error ⟨⟩ := by
  simp [storeTryBorrow, tryBorrow, h, OptUnaligned.into_option]

/-- C4: on an occupied cell compared with itself (identity-equal
operands), every member of the comparison family — `eq`, the ordering
comparisons and `cmp`, all instances of `cellBinop` — borrows once,
succeeds, applies the wrapped type's operation `f` to the single obtained
value on both sides (so non-reflexive outcomes such as NaN ≠ NaN are
reproduced), and leaves the store unchanged; `hash` likewise borrows once
and hashes the obtained value. -/
theorem self_comparison {T β : Type} (f : T → T → β) (hsh : T → ℕ)
    (σ : Store T) (a : Addr) (v : T) (hocc : σ a = cellNew v) :
    cellBinop f σ a a = Except.ok (f v v, σ) ∧
    cellHash hsh σ a = Except.ok (hsh v, σ) := by
  constructor
  · simp [cellBinop, storeTryBorrow_occupied σ a v hocc,
      storeDrop_restore σ a v hocc]
  · simp [cellHash, storeTryBorrow_occupied σ a v hocc,
      storeDrop_restore σ a v hocc]

/-- C5: swapping two distinct unborrowed cells holding v₁ and v₂ leaves
them holding v₂ and v₁ (other cells untouched); swapping a cell with
itself fails with the borrow conflict and, because the first guard's
unwinding release still writes back, leaves the store exactly as it
was. -/
theorem swap_cells {T : Type} (σ : Store T) (a b : Addr) (v₁ v₂ : T)
    (hab : a ≠ b) (ha : σ a = cellNew v₁) (hb : σ b = cellNew v₂) :
    (cellSwap σ a b).1 = Except.ok ⟨⟩ ∧
    (cellSwap σ a b).2 a = cellNew v₂ ∧
    (cellSwap σ a b).2 b = cellNew v₁ ∧
    (∀ c, c ≠ a → c ≠ b → (cellSwap σ a b).2 c = σ c) ∧
    (cellSwap σ a a).1 = Except.error ⟨⟩ ∧
    (cellSwap σ a a).2 = σ := by
  have hb₁ : storeUpdate σ a OptUnaligned.default b = cellNew v₂ := by
    simp [storeUpdate, hab.symm, hb]
  have hswap :
      cellSwap σ a b =
        (Except.ok ⟨⟩,
          storeDrop
            (storeDrop
              (storeUpdate (storeUpdate σ a OptUnaligned.default) b
                OptUnaligned.default) b v₁) a v₂) := by
    simp [cellSwap, storeTryBorrow_occupied σ a v₁ ha,
      storeTryBorrow_occupied (storeUpdate σ a OptUnaligned.default) b v₂ hb₁]
  have hself :
      cellSwap σ a a =
        (Except.error ⟨⟩, storeDrop (storeUpdate σ a OptUnaligned.default) a v₁) := by
    have hempty : storeUpdate σ a OptUnaligned.default a = OptUnaligned.none := by
      simp [storeUpdate, OptUnaligned.default]
    simp [cellSwap, storeTryBorrow_occupied σ a v₁ ha,
      storeTryBorrow_empty _ a hempty, storeDrop]
  refine ⟨by rw [hswap], ?_, ?_, ?_, by rw [hself], ?_⟩
  · rw [hswap]
    simp [storeDrop, storeUpdate, dropRefMut, hab, cellNew]
  · rw [hswap]
    simp [storeDrop, storeUpdate, dropRefMut, hab.symm, hab, cellNew]
  · intro c hca hcb
    rw [hswap]
    simp [storeDrop, storeUpdate, dropRefMut, hca, hcb]
  · rw [hself]
    exact storeDrop_restore σ a v₁ ha

/-- C9 counterexample: the failure branch of `get_mut` is reachable.
Construct a cell holding 42, borrow it, and leak the guard (safe client
code, e.g. `mem::forget`): the resulting state is empty with no guard
outstanding, so the cell can be taken by exclusive reference, yet
`get_mut`'s projection returns `None` — the `unwrap` at
src/cell.rs line 144 fails.  This refutes "the cell is always Occupied
when `get_mut` is called". -/
theorem get_mut_failure_reachable :
    CellReachable (⟨OptUnaligned.none, false, true⟩ : CellWorld ℕ) ∧
    (⟨OptUnaligned.none, false, true⟩ : CellWorld ℕ).guardOut = false ∧
    ¬ ∃ u, getMut (⟨OptUnaligned.none, false, true⟩ : CellWorld ℕ).st =
      Option.some u :=
  ⟨CellReachable.leak (CellReachable.borrow (CellReachable.init 42)),
    rfl, fun ⟨_, h⟩ => Option.noConfusion h⟩

/-- C9 (amended): `get_mut` takes the cell by exclusive reference, which
excludes any outstanding guard (`guardOut = false`); in every reachable
such state in which no guard was ever leaked, the cell is occupied, so
`get_mut` returns the handle to the underlying shim directly and its
failure branch (`unwrap` of `None`) is not taken.  (A leaked guard — the
documented misuse — is the sole way to reach the failure branch.) -/
theorem get_mut_occupied_unless_leaked {T : Type} (w : CellWorld T)
    (hreach : CellReachable w) (hexcl : w.guardOut = false)
    (hnoleak : w.leaked = false) :
    ∃ u, w.st = OptUnaligned.some u ∧ getMut w.st = Option.some u := by
  have hocc : ∃ u, w.st = OptUnaligned.some u := by
    induction hreach with
    | init v => exact ⟨Unaligned.new v, rfl⟩
    | borrow _prev _ih => simp at hexcl
    | release v _prev _ih => exact ⟨Unaligned.new v, rfl⟩
    | leak _prev _ih => simp at hnoleak
  obtain ⟨u, hu⟩ := hocc
  exact ⟨u, hu, by rw [hu]; rfl⟩

/-- C10: the derived shared-handle operations `Clone`, `Debug`, `Display`
and `Hash` all borrow internally: on a cell whose guard is outstanding
(empty slot) each fails with the same borrow-conflict error as a second
borrow, and on an unborrowed cell each delegates to the wrapped type's
operation and leaves the cell occupied with its value unchanged. -/
theorem derived_ops_borrow {T : Type} (cl : T → T) (dbg disp : T → String)
    (hsh : T → ℕ) (σ τ : Store T) (a b : Addr) (v : T)
    (hσ : σ a = OptUnaligned.none) (hτ : τ b = cellNew v) :
    tryBorrow (σ a) = Except.error ⟨⟩ ∧
    cellClone cl σ a = Except.error ⟨⟩ ∧
    cellDebugFmt dbg σ a = Except.error ⟨⟩ ∧
    cellDisplayFmt disp σ a = Except.error ⟨⟩ ∧
    cellHash hsh σ a = Except.error ⟨⟩ ∧
    cellClone cl τ b = Except.ok (cellNew (cl v), τ) ∧
    cellDebugFmt dbg τ b = Except.ok ("UnalignedCell(" ++ dbg v ++ ")", τ) ∧
    cellDisplayFmt disp τ b = Except.ok (disp v, τ) ∧
    cellHash hsh τ b = Except.ok (hsh v, τ) := by
  have herr := storeTryBorrow_empty σ a hσ
  have hok := storeTryBorrow_occupied τ b v hτ
  have hres := storeDrop_restore τ b v hτ
  refine ⟨?_, ?_, ?_, ?_, ?_, ?_, ?_, ?_, ?_⟩
  · rw [hσ]; rfl
  · rw [cellClone, herr]
  · rw [cellDebugFmt, herr]
  · rw [cellDisplayFmt, herr]
  · rw [cellHash, herr]
  · rw [cellClone, hok]
    exact congrArg (fun s => Except.ok (cellNew (cl v), s)) hres
  · rw [cellDebugFmt, hok]
    exact congrArg (fun s => Except.ok ("UnalignedCell(" ++ dbg v ++ ")", s)) hres
  · rw [cellDisplayFmt, hok]
    exact congrArg (fun s => Except.ok (disp v, s)) hres
  · rw [cellHash, hok]
    exact congrArg (fun s => Except.ok (hsh v, s)) hres

/-! ## Witnesses -/

/-- Witness for `self_comparison`: a cell holding 42 whose equality is
NaN-like (non-reflexive: always false) compared against itself succeeds
with result `false` and restores the store; hashing borrows once and
hashes the value. -/
theorem self_comparison_witness :
    cellBinop (fun _ _ => false) (fun _ => cellNew 42) 0 0 =
      Except.ok (false, fun _ => cellNew 42) ∧
    cellHash (fun n => n) (fun _ => cellNew 42) 0 =
      Except.ok (42, fun _ => cellNew 42) :=
  self_comparison (fun _ _ => false) (fun n => n) (fun _ => cellNew 42) 0 42 rfl

/-- Witness for `swap_cells`: two cells holding 1 and 2 swap to 2 and 1;
a cell swapped with itself fails and is left unchanged. -/
theorem swap_cells_witness :
    (cellSwap (fun x => if x = 0 then cellNew 1 else cellNew 2) 0 1).1 =
      Except.ok ⟨⟩ ∧
    (cellSwap (fun x => if x = 0 then cellNew 1 else cellNew 2) 0 1).2 0 =
      cellNew 2 ∧
    (cellSwap (fun x => if x = 0 then cellNew 1 else cellNew 2) 0 1).2 1 =
      cellNew 1 ∧
    (∀ c, c ≠ 0 → c ≠ 1 →
      (cellSwap (fun x => if x = 0 then cellNew 1 else cellNew 2) 0 1).2 c =
        (fun x => if x = 0 then cellNew 1 else cellNew 2) c) ∧
    (cellSwap (fun x => if x = 0 then cellNew 1 else cellNew 2) 0 0).1 =
      Except.error ⟨⟩ ∧
    (cellSwap (fun x => if x = 0 then cellNew 1 else cellNew 2) 0 0).2 =
      (fun x => if x = 0 then cellNew 1 else cellNew 2) :=
  swap_cells (fun x => if x = 0 then cellNew 1 else cellNew 2) 0 1 1 2
    (by decide) rfl rfl

/-- Witness for `get_mut_occupied_unless_leaked`: the freshly constructed
cell holding 42, with no guard outstanding and no guard leaked, is
reachable, occupied, and `get_mut` returns its shim. -/
theorem get_mut_occupied_unless_leaked_witness :
    ∃ u, (⟨cellNew 42, false, false⟩ : CellWorld ℕ).st = OptUnaligned.some u ∧
      getMut (⟨cellNew 42, false, false⟩ : CellWorld ℕ).st = Option.some u :=
  get_mut_occupied_unless_leaked ⟨cellNew 42, false, false⟩
    (CellReachable.init 42) rfl rfl

/-- Witness for `derived_ops_borrow`: on a borrowed (empty) cell every
derived operation conflicts; on a cell holding 5 each delegates to the
wrapped operation and restores the store. -/
theorem derived_ops_borrow_witness :
    tryBorrow ((fun _ => OptUnaligned.none : Store ℕ) 0) = Except.error ⟨⟩ ∧
    cellClone (fun n => n) (fun _ => OptUnaligned.none : Store ℕ) 0 =
      Except.error ⟨⟩ ∧
    cellDebugFmt (fun _ => "5") (fun _ => OptUnaligned.none : Store ℕ) 0 =
      Except.error ⟨⟩ ∧
    cellDisplayFmt (fun _ => "5") (fun _ => OptUnaligned.none : Store ℕ) 0 =
      Except.error ⟨⟩ ∧
    cellHash (fun n => n) (fun _ => OptUnaligned.none : Store ℕ) 0 =
      Except.error ⟨⟩ ∧
    cellClone (fun n => n) (fun _ => cellNew 5) 0 =
      Except.ok (cellNew 5, fun _ => cellNew 5) ∧
    cellDebugFmt (fun _ => "5") (fun _ => cellNew 5) 0 =
      Except.ok ("UnalignedCell(" ++ "5" ++ ")", fun _ => cellNew 5) ∧
    cellDisplayFmt (fun _ => "5") (fun _ => cellNew 5) 0 =
      Except.ok ("5", fun _ => cellNew 5) ∧
    cellHash (fun n => n) (fun _ => cellNew 5) 0 =
      Except.ok (5, fun _ => cellNew 5) :=
  derived_ops_borrow (fun n => n) (fun _ => "5") (fun _ => "5") (fun n => n)
    (fun _ => OptUnaligned.none) (fun _ => cellNew 5) 0 0 5 rfl rfl

end UnalignedCrate
